import Mathlib

/-!
# Shallow embedding of `src/app.py` (EPR_2025_law PDF-summarization service)

The program is a Flask service with a three-tier summarization pipeline:

1. direct PDF text extraction (`PyPDF2`), falling back to
2. OCR over rasterized pages (`pdf2image` + `pytesseract`), both inside
   `extract_pdf_text`, and finally
3. a vision language-model call on the rasterized first page
   (`summarize_with_vision`), used by the `/chat` route when the
   combined text of tiers 1 and 2 is empty after stripping.

External libraries (PDF parser, rasterizer, OCR engine, LLM API) are
modelled as oracles recorded in the `Doc` and `Client` structures: each
field gives the outcome of the corresponding library call, with
`Except.error` standing for a raised Python exception.  The functions
below mirror the control flow of `app.py` statement by statement and
additionally return a list of `Event`s recording which external calls
were made, so that "tier X was invoked" is observable in theorems.
-/

namespace App

deriving instance DecidableEq for Except

/-- Observable external calls made while serving a request.
`rasterize fp lp` records a `convert_from_path` call with the given
`first_page`/`last_page` keyword arguments (`none` = argument omitted);
`textModelCall prompt` records the `gpt-3.5-turbo` chat-completion call
with its user-message content; `visionModelCall` records the
`gpt-4o-mini` image-attached chat-completion call. -/
inductive Event where
  | pdfParse : Event
  | rasterize (firstPage lastPage : Option Nat) : Event
  | textModelCall (prompt : String) : Event
  | visionModelCall : Event
deriving DecidableEq

/-- One rasterized page image, as the OCR / vision code observes it:
the outcome of `pytesseract.image_to_string(img)` and of
`img.save(buffered, format="PNG")` + base64 encoding.  `Except.error`
models the call raising an exception (the payload is the message). -/
structure Image where
  ocrResult : Except String String
  pngBase64 : Except String String
deriving DecidableEq

/-- Oracle describing how the external PDF libraries behave on one file.

* `parsePages` models `PdfReader(pdf_path)` together with
  `page.extract_text()` on each page: `Except.error` if constructing the
  reader raises; otherwise one entry per page, `Except.error` if
  `extract_text` raises on that page, else the page's text (PyPDF2
  returns a string, possibly `""`, for a page with no text layer).
* `rasterAll` models `convert_from_path(pdf_path)` (all pages).
* `rasterFirst` models
  `convert_from_path(pdf_path, first_page=1, last_page=1)`.
  The two rasterization calls are distinct library invocations, hence
  distinct oracle fields. -/
structure Doc where
  parsePages : Except String (List (Except String String))
  rasterAll : Except String (List Image)
  rasterFirst : Except String (List Image)

/-- The OpenAI client: outcomes of `client.chat.completions.create`.
`textCompletion` takes the user-message content of the `gpt-3.5-turbo`
call; `visionCompletion` takes the base64 PNG of the attached image.
A successful response carries `response.choices[0].message.content`,
which the OpenAI SDK types as an optional string. -/
structure Client where
  textCompletion : String → Except String (Option String)
  visionCompletion : String → Except String (Option String)

/-- Python `str.strip()` on the character list: drop leading and then
trailing whitespace. -/
def stripChars (l : List Char) : List Char :=
  List.rdropWhile Char.isWhitespace (l.dropWhile Char.isWhitespace)

/-- Python `str.strip()` (default arguments): remove leading and
trailing whitespace.  Modelled over the ASCII whitespace characters
covered by `Char.isWhitespace`. -/
def pyStrip (s : String) : String :=
  ⟨stripChars s.data⟩

/-- The accumulation loop of the direct-extraction tier
(`for page in reader.pages: ... if page_text: text += page_text + "\n"`).
An `Except.error` entry models `extract_text` raising there: the
exception aborts the loop and is caught by the surrounding `try`, so the
text accumulated up to that page is kept and the remaining pages are not
visited. -/
def accumPages : List (Except String String) → String → String
  | [], acc => acc
  | .error _ :: _, acc => acc
  | .ok s :: rest, acc =>
      accumPages rest (if s = "" then acc else acc ++ s ++ "\n")

/-- The OCR loop (`for i, img in enumerate(images): ocr_text = ...;
text += ocr_text + "\n"`).  Unlike the direct tier there is no
truthiness check: every successfully recognized page appends its text
plus a newline, even when empty.  An `Except.error` models
`image_to_string` raising: the loop stops and the partially accumulated
text is kept (the exception is caught by the surrounding `try`). -/
def accumOcr : List Image → String → String
  | [], acc => acc
  | img :: rest, acc =>
      match img.ocrResult with
      | .error _ => acc
      | .ok s => accumOcr rest (acc ++ s ++ "\n")

/-- The text accumulated by the direct-extraction tier of
`extract_pdf_text` (lines 30-42 of `app.py`): the empty string when
`PdfReader` itself raises, otherwise the page loop's accumulation. -/
def directText (d : Doc) : String :=
  match d.parsePages with
  | .error _ => ""
  | .ok pages => accumPages pages ""

/-- `extract_pdf_text(pdf_path)` with its event trace (lines 29-67).
Tier 1 runs first; if its text is empty after stripping
(`if not text.strip():`) the OCR tier runs: `convert_from_path` is
invoked (recorded as `rasterize none none` even when it raises) and the
OCR loop appends to the same buffer.  The final result is
`text.strip()`. -/
def extract_pdf_text_ev (d : Doc) : String × List Event :=
  let text := directText d
  if pyStrip text = "" then
    match d.rasterAll with
    | .error _ => (pyStrip text, [.pdfParse, .rasterize none none])
    | .ok imgs => (pyStrip (accumOcr imgs text), [.pdfParse, .rasterize none none])
  else
    (pyStrip text, [.pdfParse])

/-- The string returned by `extract_pdf_text`. -/
def extract_pdf_text (d : Doc) : String :=
  (extract_pdf_text_ev d).1

/-- User-message content of the text-summarization call: the Python
source builds it with `f"Hãy tóm tắt tài liệu PDF này:\\n\\n{text}"`,
whose `\\n` are literal backslash-n sequences, not newlines. -/
def textPromptIntro : String := "Hãy tóm tắt tài liệu PDF này:\\n\\n"

/-- `summarize_with_vision(pdf_path)` with its event trace (lines
70-108).  Rasterizes only the first page
(`convert_from_path(pdf_path, first_page=1, last_page=1)`), encodes
`images[0]` as base64 PNG and makes one vision model call.  The whole
body sits in a `try/except Exception` returning `None`, so a
rasterization failure, an empty image list (where `images[0]` raises
`IndexError`), an encoding failure or an API failure all yield `none`
rather than a propagated exception. -/
def summarize_with_vision (c : Client) (d : Doc) : Option String × List Event :=
  match d.rasterFirst with
  | .error _ => (none, [.rasterize (some 1) (some 1)])
  | .ok imgs =>
    match imgs.head? with
    | none => (none, [.rasterize (some 1) (some 1)])
    | some img =>
      match img.pngBase64 with
      | .error _ => (none, [.rasterize (some 1) (some 1)])
      | .ok b64 =>
        match c.visionCompletion b64 with
        | .error _ => (none, [.rasterize (some 1) (some 1), .visionModelCall])
        | .ok content => (content, [.rasterize (some 1) (some 1), .visionModelCall])

/-- JSON body of a `/chat` response: `{"answer": ...}` (the content may
be the SDK's `None`, which the route returns unchecked) or
`{"error": msg}`. -/
inductive Body where
  | answer (content : Option String)
  | error (msg : String)
deriving DecidableEq

/-- An HTTP response: status code and JSON body. -/
structure HttpResp where
  status : Nat
  body : Body
deriving DecidableEq

/-- Server-side state of the service: the filenames present in the
`uploads` folder, the module-level `client` (`none` when
`OPENAI_API_KEY` was absent at startup), and the per-file behaviour of
the PDF libraries. -/
structure Env where
  files : List String
  client : Option Client
  docOf : String → Doc

/-- The body of the `/chat` handler after input validation (lines
243-286): `extract_pdf_text`, then either the `gpt-3.5-turbo` text
summarization (when `if text:` holds) or the vision fallback.  A falsy
vision result (`None` or `""`) yields the total-failure 500 error; a
text-model exception yields the labeled `LLM error` 500. -/
def chatValid (c : Client) (d : Doc) : HttpResp × List Event :=
  let r := extract_pdf_text_ev d
  if r.1 = "" then
    let v := summarize_with_vision c d
    match v.1 with
    | some s =>
      if s = "" then
        (⟨500, .error "Could not extract any text or summarize PDF"⟩, r.2 ++ v.2)
      else
        (⟨200, .answer (some s)⟩, r.2 ++ v.2)
    | none =>
      (⟨500, .error "Could not extract any text or summarize PDF"⟩, r.2 ++ v.2)
  else
    match c.textCompletion (textPromptIntro ++ r.1) with
    | .ok content =>
      (⟨200, .answer content⟩, r.2 ++ [.textModelCall (textPromptIntro ++ r.1)])
    | .error e =>
      (⟨500, .error ("LLM error: " ++ e)⟩, r.2 ++ [.textModelCall (textPromptIntro ++ r.1)])

/-- The `/chat` route (lines 227-286).  `pdfField` is
`data.get("pdf")`: `none` when the JSON body lacks the field.  The
route returns 400 on a falsy filename (`if not pdf_filename:`), 404
when the file is absent from the uploads folder, 500 when the client
was never configured, and otherwise runs the pipeline. -/
def chat (env : Env) (pdfField : Option String) : HttpResp × List Event :=
  match pdfField with
  | none => (⟨400, .error "No PDF filename provided"⟩, [])
  | some fname =>
    if fname = "" then
      (⟨400, .error "No PDF filename provided"⟩, [])
    else if fname ∈ env.files then
      match env.client with
      | none => (⟨500, .error "OpenAI API key not configured"⟩, [])
      | some c => chatValid c (env.docOf fname)
    else
      (⟨404, .error "File not found"⟩, [])

/-- Startup client construction (lines 17-23 of `app.py`):
`client = None` when the key is absent or empty (`if not api_key:`),
else an `OpenAI` client.  `mkClient` abstracts the constructor, which
does not contact the network and cannot fail on a non-empty key. -/
def startupClient (apiKey : Option String) (mkClient : String → Client) : Option Client :=
  match apiKey with
  | none => none
  | some k => if k = "" then none else some (mkClient k)

/-- Predicate for the event of the `gpt-3.5-turbo` text-summarization
call. -/
def isTextCall : Event → Bool
  | .textModelCall _ => true
  | _ => false

/-- Predicate for the event of the `gpt-4o-mini` vision call. -/
def isVisionCall : Event → Bool
  | .visionModelCall => true
  | _ => false

/-- The trace records a text-summarization model call. -/
def textCalled (evs : List Event) : Bool := evs.any isTextCall

/-- The trace records a vision model call. -/
def visionCalled (evs : List Event) : Bool := evs.any isVisionCall

/-! ## Basic properties of the `str.strip()` model -/

theorem dropWhile_stripChars (l : List Char) :
    List.dropWhile Char.isWhitespace (stripChars l) = stripChars l := by
  cases hs : stripChars l with
  | nil => simp
  | cons a r =>
    have hpref : stripChars l <+: l.dropWhile Char.isWhitespace :=
      List.rdropWhile_prefix _ _
    rw [hs] at hpref
    obtain ⟨t, ht⟩ := hpref
    have hne : l.dropWhile Char.isWhitespace ≠ [] := by
      rw [← ht]; simp
    have hh1 : (l.dropWhile Char.isWhitespace).head? = some a := by
      rw [← ht]; rfl
    have hh2 := List.head?_eq_head (l := l.dropWhile Char.isWhitespace) hne
    have hhead : (l.dropWhile Char.isWhitespace).head hne = a := by
      rw [hh2] at hh1
      exact Option.some.inj hh1
    have hnot : ¬ (Char.isWhitespace a = true) := by
      have h0 := List.head_dropWhile_not Char.isWhitespace l hne
      rw [hhead] at h0
      simp [h0]
    rw [List.dropWhile_cons_of_neg hnot]

theorem stripChars_idem (l : List Char) : stripChars (stripChars l) = stripChars l := by
  conv_lhs => rw [stripChars, dropWhile_stripChars]
  rw [stripChars, List.rdropWhile_idempotent]

theorem stripChars_eq_nil_iff (l : List Char) :
    stripChars l = [] ↔ ∀ c ∈ l, Char.isWhitespace c := by
  unfold stripChars
  rw [List.rdropWhile_eq_nil_iff]
  constructor
  · intro h c hc
    rw [← List.takeWhile_append_dropWhile (p := Char.isWhitespace) (l := l)] at hc
    rcases List.mem_append.mp hc with hc | hc
    · exact List.mem_takeWhile_imp hc
    · exact h c hc
  · intro h c hc
    exact h c ((List.dropWhile_suffix Char.isWhitespace).subset hc)

theorem pyStrip_idem (s : String) : pyStrip (pyStrip s) = pyStrip s := by
  unfold pyStrip
  exact congrArg String.mk (stripChars_idem s.data)

theorem pyStrip_eq_empty_iff (s : String) :
    pyStrip s = "" ↔ ∀ c ∈ s.data, Char.isWhitespace c := by
  constructor
  · intro h
    have h' : stripChars s.data = [] := by
      unfold pyStrip at h
      have h2 : (⟨stripChars s.data⟩ : String) = (⟨[]⟩ : String) := h
      injection h2
    exact (stripChars_eq_nil_iff s.data).mp h'
  · intro h
    unfold pyStrip
    exact congrArg String.mk ((stripChars_eq_nil_iff s.data).mpr h)

/-! ## Structural lemmas about the pipeline model -/

/-- Every run of `extract_pdf_text` returns a stripped string: each exit
of the function is `text.strip()`. -/
theorem extract_is_stripped (d : Doc) : ∃ t, extract_pdf_text d = pyStrip t := by
  simp only [extract_pdf_text, extract_pdf_text_ev]
  by_cases h : pyStrip (directText d) = ""
  · rw [if_pos h]
    cases hra : d.rasterAll with
    | error e => exact ⟨_, rfl⟩
    | ok imgs => exact ⟨_, rfl⟩
  · rw [if_neg h]
    exact ⟨_, rfl⟩

/-- The event trace of `extract_pdf_text`: tier 1 alone, or tiers 1 and 2. -/
theorem extract_trace_cases (d : Doc) :
    (extract_pdf_text_ev d).2 = [.pdfParse] ∨
    (extract_pdf_text_ev d).2 = [.pdfParse, .rasterize none none] := by
  simp only [extract_pdf_text_ev]
  by_cases h : pyStrip (directText d) = ""
  · rw [if_pos h]
    cases hra : d.rasterAll with
    | error e => right; rfl
    | ok imgs => right; rfl
  · rw [if_neg h]
    left; rfl

/-- The extraction tiers make no model calls. -/
theorem extract_trace_no_model_calls (d : Doc) :
    textCalled (extract_pdf_text_ev d).2 = false ∧
    visionCalled (extract_pdf_text_ev d).2 = false := by
  rcases extract_trace_cases d with h | h <;> rw [h] <;> exact ⟨rfl, rfl⟩

/-- The event trace of `summarize_with_vision`: the single-page
rasterization, followed by the vision model call when control reaches
it. -/
theorem vision_trace_cases (c : Client) (d : Doc) :
    (summarize_with_vision c d).2 = [.rasterize (some 1) (some 1)] ∨
    (summarize_with_vision c d).2 = [.rasterize (some 1) (some 1), .visionModelCall] := by
  cases hrf : d.rasterFirst with
  | error e => left; simp [summarize_with_vision, hrf]
  | ok imgs =>
    cases imgs with
    | nil => left; simp [summarize_with_vision, hrf]
    | cons img rest =>
      cases hpb : img.pngBase64 with
      | error e => left; simp [summarize_with_vision, hrf, hpb]
      | ok b64 =>
        cases hvc : c.visionCompletion b64 with
        | error e => right; simp [summarize_with_vision, hrf, hpb, hvc]
        | ok content => right; simp [summarize_with_vision, hrf, hpb, hvc]

/-- The vision helper never makes the text-summarization call. -/
theorem vision_trace_no_text_call (c : Client) (d : Doc) :
    textCalled (summarize_with_vision c d).2 = false := by
  rcases vision_trace_cases c d with h | h <;> rw [h] <;> rfl

/-- If `summarize_with_vision` returns a summary, the vision model call
was made. -/
theorem vision_some_trace (c : Client) (d : Doc) (s : String)
    (h : (summarize_with_vision c d).1 = some s) :
    (summarize_with_vision c d).2 = [.rasterize (some 1) (some 1), .visionModelCall] := by
  cases hrf : d.rasterFirst with
  | error e => simp [summarize_with_vision, hrf] at h
  | ok imgs =>
    cases imgs with
    | nil => simp [summarize_with_vision, hrf] at h
    | cons img rest =>
      cases hpb : img.pngBase64 with
      | error e => simp [summarize_with_vision, hrf, hpb] at h
      | ok b64 =>
        cases hvc : c.visionCompletion b64 with
        | error e => simp [summarize_with_vision, hrf, hpb, hvc]
        | ok content => simp [summarize_with_vision, hrf, hpb, hvc]

/-- Post-validation control flow: when the extracted text is empty the
handler's trace is the extraction trace followed by the vision trace. -/
theorem chatValid_vision_trace (c : Client) (d : Doc)
    (h : (extract_pdf_text_ev d).1 = "") :
    (chatValid c d).2 = (extract_pdf_text_ev d).2 ++ (summarize_with_vision c d).2 := by
  simp only [chatValid]
  rw [if_pos h]
  cases hv : (summarize_with_vision c d).1 with
  | none => rfl
  | some s => by_cases hs : s = "" <;> simp [hs]

/-- Post-validation control flow: when the extracted text is non-empty
the handler's trace is the extraction trace followed by the single
text-summarization call. -/
theorem chatValid_text_trace (c : Client) (d : Doc)
    (h : (extract_pdf_text_ev d).1 ≠ "") :
    (chatValid c d).2
      = (extract_pdf_text_ev d).2
        ++ [.textModelCall (textPromptIntro ++ (extract_pdf_text_ev d).1)] := by
  simp only [chatValid]
  rw [if_neg h]
  cases htc : c.textCompletion (textPromptIntro ++ (extract_pdf_text_ev d).1) with
  | ok content => rfl
  | error e => rfl

theorem textCalled_append (a b : List Event) :
    textCalled (a ++ b) = (textCalled a || textCalled b) :=
  List.any_append

theorem visionCalled_append (a b : List Event) :
    visionCalled (a ++ b) = (visionCalled a || visionCalled b) :=
  List.any_append

/-- When both text tiers end with an empty buffer and the vision helper
yields a falsy value (`None` or `""`), the handler answers the
total-failure 500 error. -/
theorem chatValid_total_failure (c : Client) (d : Doc)
    (hext : (extract_pdf_text_ev d).1 = "")
    (hv : (summarize_with_vision c d).1 = none ∨
          (summarize_with_vision c d).1 = some "") :
    (chatValid c d).1
      = ⟨500, Body.error "Could not extract any text or summarize PDF"⟩ := by
  simp only [chatValid]
  rw [if_pos hext]
  rcases hv with hv | hv <;> simp [hv]

/-- The OCR tier runs exactly when the direct tier's accumulated text
is empty after stripping. -/
theorem ocr_invoked_iff (d : Doc) :
    Event.rasterize none none ∈ (extract_pdf_text_ev d).2
      ↔ pyStrip (directText d) = "" := by
  simp only [extract_pdf_text_ev]
  by_cases h : pyStrip (directText d) = ""
  · rw [if_pos h]
    cases hra : d.rasterAll <;> simp [h]
  · rw [if_neg h]
    simp [h]

/-- With a valid filename and configured client, `/chat` runs the
pipeline body. -/
theorem chat_eq_chatValid (env : Env) (fname : String) (c : Client)
    (hne : fname ≠ "") (hmem : fname ∈ env.files) (hc : env.client = some c) :
    chat env (some fname) = chatValid c (env.docOf fname) := by
  simp only [chat]
  rw [if_neg hne, if_pos hmem, hc]

/-! ## Concrete fixtures used by the witnesses -/

/-- A client whose calls always succeed with fixed summaries. -/
def clientOk : Client :=
  ⟨fun _ => .ok (some "TEXT SUMMARY"), fun _ => .ok (some "VISION SUMMARY")⟩

/-- A page image whose OCR yields recognizable text. -/
def imgScan : Image := ⟨.ok "scanned text", .ok "PNGDATA"⟩

/-- A page image with no recognizable glyphs. -/
def imgPlain : Image := ⟨.ok "", .ok "PNGDATA"⟩

/-- A document with an embedded text layer. -/
def docText : Doc := ⟨.ok [.ok "Hello world."], .ok [], .ok []⟩

/-- A scanned document: no text layer, OCR succeeds. -/
def docScan : Doc := ⟨.ok [], .ok [imgScan], .ok [imgScan]⟩

/-- An image-only document: no text from either tier, vision succeeds. -/
def docImageOnly : Doc := ⟨.ok [], .ok [imgPlain], .ok [imgPlain]⟩

/-- A blank document on which even the vision tier's rasterization
raises. -/
def docBlank : Doc := ⟨.ok [], .ok [], .error "raster failed"⟩

/-- A document whose single-page rasterization returns no images. -/
def docZeroPage : Doc := ⟨.ok [], .ok [], .ok []⟩

/-- Uploads folder with one document of each behaviour, configured key. -/
def envMain : Env :=
  ⟨["a.pdf", "scan.pdf", "image_only.pdf", "blank.pdf", "zero.pdf"],
   some clientOk,
   fun f =>
     if f = "scan.pdf" then docScan
     else if f = "image_only.pdf" then docImageOnly
     else if f = "blank.pdf" then docBlank
     else if f = "zero.pdf" then docZeroPage
     else docText⟩

/-- The same server started without `OPENAI_API_KEY`. -/
def envNoKey : Env := ⟨["a.pdf"], none, fun _ => docText⟩

/-! ## Claims -/

/-- C10: for every input (existing or not, valid PDF or not — every
oracle behaviour, including parse, page and OCR exceptions),
`extract_pdf_text` is total by construction — every exception is caught
inside the function, which is why its model needs no error channel —
and it always returns an already-stripped string, so the `/chat` branch
condition "text is non-empty" coincides with "text contains a
non-whitespace character". -/
theorem C10_extract_total_stripped (d : Doc) :
    extract_pdf_text d = pyStrip (extract_pdf_text d) ∧
    (extract_pdf_text d ≠ ""
      ↔ ¬ ∀ c ∈ (extract_pdf_text d).data, Char.isWhitespace c) := by
  obtain ⟨t, ht⟩ := extract_is_stripped d
  constructor
  · rw [ht, pyStrip_idem]
  · have hiff := pyStrip_eq_empty_iff (pyStrip t)
    rw [pyStrip_idem] at hiff
    rw [ht]
    exact not_congr hiff

/-- C8: a `/chat` request without a `"pdf"` field is answered 400, a
request naming a file absent from the uploads folder is answered 404,
and in both cases the event trace is empty: no extraction tier (direct,
OCR or vision) and no model call runs. -/
theorem C8_validation_before_tiers (env : Env) (fname : String) :
    chat env none = (⟨400, Body.error "No PDF filename provided"⟩, []) ∧
    (fname ≠ "" → fname ∉ env.files →
      chat env (some fname) = (⟨404, Body.error "File not found"⟩, [])) := by
  refine ⟨rfl, fun h1 h2 => ?_⟩
  simp only [chat]
  rw [if_neg h1, if_neg h2]

theorem C8_validation_before_tiers_witness :
    (("nope.pdf" : String) ≠ "" ∧ "nope.pdf" ∉ envMain.files) ∧
    chat envMain none = (⟨400, Body.error "No PDF filename provided"⟩, []) ∧
    chat envMain (some "nope.pdf") = (⟨404, Body.error "File not found"⟩, []) :=
  ⟨⟨by decide, by decide⟩,
    (C8_validation_before_tiers envMain "nope.pdf").1,
    (C8_validation_before_tiers envMain "nope.pdf").2 (by decide) (by decide)⟩

/-- C9: when the single-page rasterization returns an empty image list,
`summarize_with_vision` signals "no summary" (`None`) to its caller —
the `IndexError` from `images[0]` is caught by the function's
`except Exception` — and the vision model call is never reached. -/
theorem C9_empty_raster_controlled (c : Client) (d : Doc)
    (h : d.rasterFirst = .ok []) :
    (summarize_with_vision c d).1 = none ∧
    visionCalled (summarize_with_vision c d).2 = false := by
  constructor
  · simp [summarize_with_vision, h]
  · simp [summarize_with_vision, h, visionCalled, isVisionCall]

theorem C9_empty_raster_controlled_witness :
    docZeroPage.rasterFirst = Except.ok [] ∧
    ((summarize_with_vision clientOk docZeroPage).1 = none ∧
      visionCalled (summarize_with_vision clientOk docZeroPage).2 = false) :=
  ⟨rfl, C9_empty_raster_controlled clientOk docZeroPage rfl⟩

/-- C7: on a request that passes validation, when both text tiers left
the buffer empty and the vision fallback yields no summary (an
exception, `None` content — or the equally falsy `""`), the response is
exactly `{"error": "Could not extract any text or summarize PDF"}` with
status 500. -/
theorem C7_total_failure_response (env : Env) (fname : String) (c : Client)
    (hne : fname ≠ "") (hmem : fname ∈ env.files) (hc : env.client = some c)
    (hext : extract_pdf_text (env.docOf fname) = "")
    (hv : (summarize_with_vision c (env.docOf fname)).1 = none ∨
          (summarize_with_vision c (env.docOf fname)).1 = some "") :
    (chat env (some fname)).1
      = ⟨500, Body.error "Could not extract any text or summarize PDF"⟩ := by
  rw [chat_eq_chatValid env fname c hne hmem hc]
  exact chatValid_total_failure c (env.docOf fname) hext hv

theorem C7_total_failure_response_witness :
    (("blank.pdf" : String) ≠ "" ∧ "blank.pdf" ∈ envMain.files ∧
      envMain.client = some clientOk ∧
      extract_pdf_text (envMain.docOf "blank.pdf") = "" ∧
      (summarize_with_vision clientOk (envMain.docOf "blank.pdf")).1 = none) ∧
    (chat envMain (some "blank.pdf")).1
      = ⟨500, Body.error "Could not extract any text or summarize PDF"⟩ :=
  ⟨⟨by decide, by decide, rfl, by decide, by decide⟩,
    C7_total_failure_response envMain "blank.pdf" clientOk (by decide) (by decide)
      rfl (by decide) (Or.inl (by decide))⟩

/-- C1: on every `/chat` request that passes input validation (filename
present, file exists, client configured) exactly one of the
text-summarization call and the vision call is made — never both; the
only way neither is made is a total failure of the fallback chain, and
then (as whenever the vision tier fails) the response is an explicit
500 error rather than an empty summary. -/
theorem C1_one_summarization_path (env : Env) (fname : String) (c : Client)
    (hne : fname ≠ "") (hmem : fname ∈ env.files) (hc : env.client = some c) :
    ((textCalled (chat env (some fname)).2 = true ∧
      visionCalled (chat env (some fname)).2 = false) ∨
     (textCalled (chat env (some fname)).2 = false ∧
      visionCalled (chat env (some fname)).2 = true) ∨
     (textCalled (chat env (some fname)).2 = false ∧
      visionCalled (chat env (some fname)).2 = false ∧
      (chat env (some fname)).1.status = 500 ∧
      (chat env (some fname)).1.body
        = Body.error "Could not extract any text or summarize PDF")) ∧
    (extract_pdf_text (env.docOf fname) = "" →
     ((summarize_with_vision c (env.docOf fname)).1 = none ∨
      (summarize_with_vision c (env.docOf fname)).1 = some "") →
     (chat env (some fname)).1
       = ⟨500, Body.error "Could not extract any text or summarize PDF"⟩) := by
  rw [chat_eq_chatValid env fname c hne hmem hc]
  constructor
  · by_cases h : (extract_pdf_text_ev (env.docOf fname)).1 = ""
    · have htr := chatValid_vision_trace c (env.docOf fname) h
      cases hv : (summarize_with_vision c (env.docOf fname)).1 with
      | some s =>
        right; left
        have hvt := vision_some_trace c (env.docOf fname) s hv
        constructor
        · rw [htr, textCalled_append, (extract_trace_no_model_calls _).1,
            vision_trace_no_text_call]
          rfl
        · rw [htr, visionCalled_append, (extract_trace_no_model_calls _).2, hvt]
          rfl
      | none =>
        rcases vision_trace_cases c (env.docOf fname) with hvt | hvt
        · right; right
          refine ⟨?_, ?_, ?_, ?_⟩
          · rw [htr, textCalled_append, (extract_trace_no_model_calls _).1,
              vision_trace_no_text_call]
            rfl
          · rw [htr, visionCalled_append, (extract_trace_no_model_calls _).2, hvt]
            rfl
          · rw [chatValid_total_failure c (env.docOf fname) h (Or.inl hv)]
          · rw [chatValid_total_failure c (env.docOf fname) h (Or.inl hv)]
        · right; left
          constructor
          · rw [htr, textCalled_append, (extract_trace_no_model_calls _).1,
              vision_trace_no_text_call]
            rfl
          · rw [htr, visionCalled_append, (extract_trace_no_model_calls _).2, hvt]
            rfl
    · left
      have htr := chatValid_text_trace c (env.docOf fname) h
      constructor
      · rw [htr, textCalled_append, (extract_trace_no_model_calls _).1]
        rfl
      · rw [htr, visionCalled_append, (extract_trace_no_model_calls _).2]
        rfl
  · intro hext hv
    exact chatValid_total_failure c (env.docOf fname) hext hv

theorem C1_one_summarization_path_witness :
    (("a.pdf" : String) ≠ "" ∧ "a.pdf" ∈ envMain.files ∧
      envMain.client = some clientOk) ∧
    ((textCalled (chat envMain (some "a.pdf")).2 = true ∧
      visionCalled (chat envMain (some "a.pdf")).2 = false) ∨
     (textCalled (chat envMain (some "a.pdf")).2 = false ∧
      visionCalled (chat envMain (some "a.pdf")).2 = true) ∨
     (textCalled (chat envMain (some "a.pdf")).2 = false ∧
      visionCalled (chat envMain (some "a.pdf")).2 = false ∧
      (chat envMain (some "a.pdf")).1.status = 500 ∧
      (chat envMain (some "a.pdf")).1.body
        = Body.error "Could not extract any text or summarize PDF")) :=
  ⟨⟨by decide, by decide, rfl⟩,
    (C1_one_summarization_path envMain "a.pdf" clientOk (by decide) (by decide) rfl).1⟩

/-- C2: when both text tiers leave the buffer empty after stripping,
the `/chat` handler invokes the vision summarizer; that summarizer's
only rasterization is of exactly the first page
(`first_page=1, last_page=1` — and no other rasterization occurs inside
it), no text-summarization model call is ever made on such a request,
and a non-empty vision model response is returned directly as the
`answer`. -/
theorem C2_vision_first_page_direct_answer (env : Env) (fname : String) (c : Client)
    (hne : fname ≠ "") (hmem : fname ∈ env.files) (hc : env.client = some c)
    (hdirect : pyStrip (directText (env.docOf fname)) = "")
    (hext : extract_pdf_text (env.docOf fname) = "") :
    (chat env (some fname)).2
      = (extract_pdf_text_ev (env.docOf fname)).2
        ++ (summarize_with_vision c (env.docOf fname)).2 ∧
    Event.rasterize (some 1) (some 1)
      ∈ (summarize_with_vision c (env.docOf fname)).2 ∧
    (∀ fp lp, Event.rasterize fp lp ∈ (summarize_with_vision c (env.docOf fname)).2 →
      fp = some 1 ∧ lp = some 1) ∧
    textCalled (chat env (some fname)).2 = false ∧
    (∀ s, (summarize_with_vision c (env.docOf fname)).1 = some s → s ≠ "" →
      (chat env (some fname)).1 = ⟨200, Body.answer (some s)⟩) := by
  rw [chat_eq_chatValid env fname c hne hmem hc]
  have hext' : (extract_pdf_text_ev (env.docOf fname)).1 = "" := hext
  have htr := chatValid_vision_trace c (env.docOf fname) hext'
  refine ⟨htr, ?_, ?_, ?_, ?_⟩
  · rcases vision_trace_cases c (env.docOf fname) with hvt | hvt <;> rw [hvt] <;> simp
  · intro fp lp hm
    rcases vision_trace_cases c (env.docOf fname) with hvt | hvt <;>
      rw [hvt] at hm <;> simpa using hm
  · rw [htr, textCalled_append, (extract_trace_no_model_calls _).1,
      vision_trace_no_text_call]
    rfl
  · intro s hv hs
    simp only [chatValid]
    rw [if_pos hext', hv]
    simp [hs]

theorem C2_vision_first_page_direct_answer_witness :
    (("image_only.pdf" : String) ≠ "" ∧ "image_only.pdf" ∈ envMain.files ∧
      envMain.client = some clientOk ∧
      pyStrip (directText (envMain.docOf "image_only.pdf")) = "" ∧
      extract_pdf_text (envMain.docOf "image_only.pdf") = "") ∧
    (Event.rasterize (some 1) (some 1)
      ∈ (summarize_with_vision clientOk (envMain.docOf "image_only.pdf")).2 ∧
     textCalled (chat envMain (some "image_only.pdf")).2 = false ∧
     (chat envMain (some "image_only.pdf")).1
       = ⟨200, Body.answer (some "VISION SUMMARY")⟩) :=
  ⟨⟨by decide, by decide, rfl, by decide, by decide⟩,
    (C2_vision_first_page_direct_answer envMain "image_only.pdf" clientOk
        (by decide) (by decide) rfl (by decide) (by decide)).2.1,
    (C2_vision_first_page_direct_answer envMain "image_only.pdf" clientOk
        (by decide) (by decide) rfl (by decide) (by decide)).2.2.2.1,
    (C2_vision_first_page_direct_answer envMain "image_only.pdf" clientOk
        (by decide) (by decide) rfl (by decide) (by decide)).2.2.2.2
      "VISION SUMMARY" (by decide) (by decide)⟩

/-- C3: the OCR tier (the all-pages rasterization inside
`extract_pdf_text`) runs if and only if the direct tier's accumulated
output is empty after stripping; and when the OCR output makes the
extracted text non-empty, that text is sent (with the fixed prompt
introduction) to the text-summarization model call and the vision call
is never made. -/
theorem C3_ocr_gating_text_path (env : Env) (fname : String) (c : Client)
    (hne : fname ≠ "") (hmem : fname ∈ env.files) (hc : env.client = some c) :
    (Event.rasterize none none ∈ (extract_pdf_text_ev (env.docOf fname)).2
      ↔ pyStrip (directText (env.docOf fname)) = "") ∧
    (pyStrip (directText (env.docOf fname)) = "" →
     extract_pdf_text (env.docOf fname) ≠ "" →
      Event.textModelCall (textPromptIntro ++ extract_pdf_text (env.docOf fname))
        ∈ (chat env (some fname)).2 ∧
      visionCalled (chat env (some fname)).2 = false) := by
  refine ⟨ocr_invoked_iff (env.docOf fname), fun h1 h2 => ?_⟩
  rw [chat_eq_chatValid env fname c hne hmem hc]
  have h2' : (extract_pdf_text_ev (env.docOf fname)).1 ≠ "" := h2
  have htr := chatValid_text_trace c (env.docOf fname) h2'
  have hx : (extract_pdf_text_ev (env.docOf fname)).1
      = extract_pdf_text (env.docOf fname) := rfl
  rw [hx] at htr
  constructor
  · rw [htr]
    simp
  · rw [htr, visionCalled_append, (extract_trace_no_model_calls _).2]
    rfl

theorem C3_ocr_gating_text_path_witness :
    (("scan.pdf" : String) ≠ "" ∧ "scan.pdf" ∈ envMain.files ∧
      envMain.client = some clientOk ∧
      pyStrip (directText (envMain.docOf "scan.pdf")) = "" ∧
      extract_pdf_text (envMain.docOf "scan.pdf") ≠ "") ∧
    ((Event.rasterize none none ∈ (extract_pdf_text_ev (envMain.docOf "scan.pdf")).2
        ↔ pyStrip (directText (envMain.docOf "scan.pdf")) = "") ∧
     Event.textModelCall (textPromptIntro ++ extract_pdf_text (envMain.docOf "scan.pdf"))
        ∈ (chat envMain (some "scan.pdf")).2 ∧
     visionCalled (chat envMain (some "scan.pdf")).2 = false) :=
  ⟨⟨by decide, by decide, rfl, by decide, by decide⟩,
    (C3_ocr_gating_text_path envMain "scan.pdf" clientOk (by decide) (by decide) rfl).1,
    (C3_ocr_gating_text_path envMain "scan.pdf" clientOk (by decide) (by decide) rfl).2
      (by decide) (by decide)⟩

/-- Per-page concatenation as the C4 claim words it — "each page's
embedded text, each page's text followed by a newline" — written down
for comparison with the code's behaviour. -/
def claimedPerPageConcat : List String → String
  | [] => ""
  | s :: rest => s ++ "\n" ++ claimedPerPageConcat rest

/-- The C4 claim's asserted result: the per-page concatenation with
leading and trailing whitespace trimmed. -/
def claimedDirectResult (pages : List String) : String :=
  pyStrip (claimedPerPageConcat pages)

/-- Per-page concatenation as the code actually computes it: a page
whose extracted text is empty fails the `if page_text:` truthiness
check and contributes nothing, not even its newline. -/
def concatNonEmptyPages : List String → String
  | [] => ""
  | s :: rest => (if s = "" then "" else s ++ "\n") ++ concatNonEmptyPages rest

theorem accumPages_map_ok (pages : List String) (acc : String) :
    accumPages (pages.map Except.ok) acc = acc ++ concatNonEmptyPages pages := by
  induction pages generalizing acc with
  | nil => simp [accumPages, concatNonEmptyPages]
  | cons s rest ih =>
    simp only [List.map_cons, accumPages]
    by_cases hs : s = ""
    · rw [if_pos hs, ih]
      simp [concatNonEmptyPages, hs]
    · rw [if_neg hs, ih]
      simp only [concatNonEmptyPages, if_neg hs]
      simp [String.append_assoc]

/-- A document whose three pages have embedded text "a", "" and "b":
the PDF parses, every page's `extract_text` succeeds. -/
def docPageGap : Doc := ⟨.ok [.ok "a", .ok "", .ok "b"], .ok [], .ok []⟩

/-- C4 fails as stated: on a readable, parseable PDF whose middle page
has empty embedded text, the extractor returns `"a\nb"` — the empty
page contributes neither text nor its newline, because of the
`if page_text:` check — while the claimed per-page formula gives
`"a\n\nb"`. -/
theorem C4_counterexample :
    docPageGap.parsePages = .ok (["a", "", "b"].map Except.ok) ∧
    extract_pdf_text docPageGap = "a\nb" ∧
    claimedDirectResult ["a", "", "b"] = "a\n\nb" ∧
    extract_pdf_text docPageGap ≠ claimedDirectResult ["a", "", "b"] := by
  refine ⟨rfl, by decide, by decide, by decide⟩

/-- C4 (amended): for every readable, parseable PDF (the reader
succeeds and every page's `extract_text` returns), the direct tier
accumulates the concatenation of each page's *non-empty* embedded text,
each followed by a newline — pages with empty text contribute nothing —
and when that buffer is non-empty after stripping, `extract_pdf_text`
returns it with leading and trailing whitespace trimmed. -/
theorem C4_direct_extractor_contract (d : Doc) (pages : List String)
    (hp : d.parsePages = .ok (pages.map Except.ok)) :
    directText d = concatNonEmptyPages pages ∧
    (pyStrip (directText d) ≠ "" →
      extract_pdf_text d = pyStrip (directText d)) := by
  constructor
  · have hd : directText d
        = accumPages (pages.map Except.ok) "" := by
      unfold directText
      rw [hp]
    rw [hd, accumPages_map_ok]
    simp
  · intro h
    simp only [extract_pdf_text, extract_pdf_text_ev]
    rw [if_neg h]

theorem C4_direct_extractor_contract_witness :
    (docText.parsePages = .ok (["Hello world."].map Except.ok) ∧
      pyStrip (directText docText) ≠ "") ∧
    (directText docText = concatNonEmptyPages ["Hello world."] ∧
      extract_pdf_text docText = pyStrip (directText docText)) :=
  ⟨⟨rfl, by decide⟩,
    (C4_direct_extractor_contract docText ["Hello world."] rfl).1,
    (C4_direct_extractor_contract docText ["Hello world."] rfl).2 (by decide)⟩

theorem accumPages_stop_at_error (pre : List String) (e : String)
    (post : List (Except String String)) (acc : String) :
    accumPages (pre.map Except.ok ++ .error e :: post) acc
      = accumPages (pre.map Except.ok) acc := by
  induction pre generalizing acc with
  | nil => rfl
  | cons s rest ih =>
    simp only [List.map_cons, List.cons_append, accumPages]
    exact ih _

theorem accumOcr_stop_at_error (pre : List Image) (img : Image) (e : String)
    (h : img.ocrResult = .error e) (post : List Image) (acc : String) :
    accumOcr (pre ++ img :: post) acc = accumOcr pre acc := by
  induction pre generalizing acc with
  | nil => simp [accumOcr, h]
  | cons i rest ih =>
    simp only [List.cons_append, accumOcr]
    cases hi : i.ocrResult with
    | error e2 => rfl
    | ok s => exact ih _

/-- C5: exceptions inside either extraction tier are contained at that
tier's boundary and never abort the request — `extract_pdf_text`
returns a plain string on every oracle behaviour (which is why its
model has no error channel at all).  Concretely:
1. a `PdfReader` construction failure behaves exactly like a zero-page
   document;
2. a page-level `extract_text` failure keeps the text accumulated from
   the earlier pages and behaves as if the document ended there;
3. a `convert_from_path` failure in the OCR tier behaves exactly like a
   document that rasterizes to no images, yielding the text accumulated
   so far (possibly empty);
4. an `image_to_string` failure mid-loop yields the OCR text
   accumulated from the earlier images, as if the image list ended
   there. -/
theorem C5_extraction_errors_contained :
    (∀ (e : String) ra rf, extract_pdf_text ⟨.error e, ra, rf⟩
        = extract_pdf_text ⟨.ok [], ra, rf⟩) ∧
    (∀ (pre : List String) (e : String) (post : List (Except String String)) ra rf,
      extract_pdf_text ⟨.ok (pre.map Except.ok ++ .error e :: post), ra, rf⟩
        = extract_pdf_text ⟨.ok (pre.map Except.ok), ra, rf⟩) ∧
    (∀ pp (e : String) rf, extract_pdf_text ⟨pp, .error e, rf⟩
        = extract_pdf_text ⟨pp, .ok [], rf⟩) ∧
    (∀ pp (pre : List Image) (img : Image) (post : List Image) (e : String) rf,
      img.ocrResult = .error e →
      extract_pdf_text ⟨pp, .ok (pre ++ img :: post), rf⟩
        = extract_pdf_text ⟨pp, .ok pre, rf⟩) := by
  refine ⟨fun e ra rf => rfl, fun pre e post ra rf => ?_, fun pp e rf => rfl,
    fun pp pre img post e rf h => ?_⟩
  · simp only [extract_pdf_text, extract_pdf_text_ev, directText]
    rw [accumPages_stop_at_error]
  · simp only [extract_pdf_text, extract_pdf_text_ev, directText]
    rw [accumOcr_stop_at_error pre img e h post]

/-- A page image on which `pytesseract` raises. -/
def imgErr : Image := ⟨.error "tesseract crashed", .ok "PNGDATA"⟩

theorem C5_extraction_errors_contained_witness :
    imgErr.ocrResult = Except.error "tesseract crashed" ∧
    extract_pdf_text ⟨.ok [], .ok [imgScan, imgErr, imgScan], .ok []⟩
      = extract_pdf_text ⟨.ok [], .ok [imgScan], .ok []⟩ :=
  ⟨rfl,
    C5_extraction_errors_contained.2.2.2 (.ok []) [imgScan] imgErr [imgScan]
      "tesseract crashed" (.ok []) rfl⟩

/-- C6 fails as stated: with no API key configured the server does
start (`client = None`) but not *every* `/chat` call fails with the
500 "not configured" error — a request with no `"pdf"` field still
fails with the 400 validation error, which is checked first. -/
theorem C6_counterexample :
    envNoKey.client = none ∧
    chat envNoKey none = (⟨400, Body.error "No PDF filename provided"⟩, []) ∧
    (chat envNoKey none).1.status ≠ 500 ∧
    (chat envNoKey none).1.body ≠ Body.error "OpenAI API key not configured" :=
  ⟨rfl, rfl, by decide, by decide⟩

/-- C6 (amended): when the API credential is absent from the
environment, startup sets `client = None` instead of crashing, and
every `/chat` call fails — none produces an answer; calls that pass
request validation (field present and non-empty, file exists) fail
with the clear 500 "OpenAI API key not configured" error at first use,
while calls failing validation keep their 400/404 errors. -/
theorem C6_missing_key_fails_cleanly (env : Env) (req : Option String)
    (hc : env.client = none) :
    (∀ mk, startupClient none mk = none) ∧
    (∀ s, (chat env req).1.body ≠ Body.answer s) ∧
    ((chat env req).1.status = 400 ∨ (chat env req).1.status = 404 ∨
      (chat env req).1.status = 500) ∧
    (∀ f, req = some f → f ≠ "" → f ∈ env.files →
      chat env req = (⟨500, Body.error "OpenAI API key not configured"⟩, [])) := by
  cases req with
  | none =>
    refine ⟨fun mk => rfl, fun s => by simp [chat], Or.inl rfl, ?_⟩
    intro f hf
    cases hf
  | some fname =>
    by_cases h1 : fname = ""
    · subst h1
      refine ⟨fun mk => rfl, fun s => by simp [chat], Or.inl rfl, ?_⟩
      intro f hf hne _
      have hfe : f = "" := (Option.some.inj hf).symm
      exact absurd hfe hne
    · by_cases h2 : fname ∈ env.files
      · have hcc : chat env (some fname)
            = (⟨500, Body.error "OpenAI API key not configured"⟩, []) := by
          simp only [chat]
          rw [if_neg h1, if_pos h2, hc]
        refine ⟨fun mk => rfl, ?_, Or.inr (Or.inr ?_), ?_⟩
        · intro s
          rw [hcc]
          simp
        · rw [hcc]
        · intro f hf _ _
          exact hcc
      · have hcc : chat env (some fname) = (⟨404, Body.error "File not found"⟩, []) := by
          simp only [chat]
          rw [if_neg h1, if_neg h2]
        refine ⟨fun mk => rfl, ?_, Or.inr (Or.inl ?_), ?_⟩
        · intro s
          rw [hcc]
          simp
        · rw [hcc]
        · intro f hf hne hmem
          have hfe : f = fname := (Option.some.inj hf).symm
          subst hfe
          exact absurd hmem h2

theorem C6_missing_key_fails_cleanly_witness :
    (envNoKey.client = none ∧ (some "a.pdf" : Option String) = some "a.pdf" ∧
      ("a.pdf" : String) ≠ "" ∧ "a.pdf" ∈ envNoKey.files) ∧
    ((∀ s, (chat envNoKey (some "a.pdf")).1.body ≠ Body.answer s) ∧
      chat envNoKey (some "a.pdf")
        = (⟨500, Body.error "OpenAI API key not configured"⟩, [])) :=
  ⟨⟨rfl, rfl, by decide, by decide⟩,
    (C6_missing_key_fails_cleanly envNoKey (some "a.pdf") rfl).2.1,
    (C6_missing_key_fails_cleanly envNoKey (some "a.pdf") rfl).2.2.2 "a.pdf" rfl
      (by decide) (by decide)⟩

end App
